import Mathlib

/-!
Verification of the matchy event-registration service layer.

The TypeScript services (`eventService.ts`, `profileService.ts`) and the
PostgreSQL trigger DDL are embedded as pure Lean functions.  Network
interactions are made explicit: each service function takes the response of
the database client as an argument (an `Except` of an optional result set),
and functions whose behaviour depends on whether a request was issued return
a record with a `networkCalled` flag.  JavaScript `undefined` is modelled by
`Option`, JavaScript string falsiness (`undefined` or `""`) by `jsStrFalsy`,
and timestamps by their epoch value as an `Int` (the string/`Temporal`
round-trip on valid timestamps is the identity on the instant).
-/

namespace Matchy

/-- JavaScript falsiness of an optional string: `undefined` and `""` are
falsy, every other string is truthy. -/
def jsStrFalsy : Option String → Bool
  | none => true
  | some s => s == ""

/-- The authenticated user held by the auth store (`authStore.user`):
an id and an optional email. -/
structure User where
  id : String
  email : Option String
deriving DecidableEq

/-- A row of the `events` table (scalar columns of `EventInfo`;
`datetime` is the stored instant as an epoch offset in seconds). -/
structure EventRow where
  id : Nat
  organizer : String
  title : String
  description : String
  header_image : Option String
  datetime : Int
  location : String
  max_participants : Nat
  is_ended : Bool
  is_cancelled : Bool
deriving DecidableEq

/-- Modelled from the spec: `dateXHoursAgo` lives in
`src/frontend/src/services/utils/datetime.ts`, which is not among the
provided sources; per the spec the listing filter keeps events "with
datetime later than one hour before now", so `dateXHoursAgo now x` is the
instant `x` hours before `now`. -/
def dateXHoursAgo (now : Int) (x : Int) : Int := now - x * 3600

/-- Comparison used by `.order("datetime", ascending)` on event rows. -/
def dtLe (a b : EventRow) : Prop := a.datetime ≤ b.datetime

instance : DecidableRel dtLe :=
  fun a b => inferInstanceAs (Decidable (a.datetime ≤ b.datetime))

instance : IsTotal EventRow dtLe :=
  ⟨fun a b => Int.le_total a.datetime b.datetime⟩

instance : IsTrans EventRow dtLe :=
  ⟨fun _ _ _ hab hbc => le_trans hab hbc⟩

/-- The server-side query of `fetchEvents` (eventService.ts lines 56-64):
`not is_cancelled eq true`, `not is_ended eq true`,
`gt datetime (one hour ago)`, `order datetime ascending`. -/
def eventsQuery (db : List EventRow) (now : Int) : List EventRow :=
  List.insertionSort dtLe
    (db.filter
      (fun e => !e.is_cancelled && !e.is_ended &&
        decide (dateXHoursAgo now 1 < e.datetime)))

/-- Function `fetchEvents` (eventService.ts lines 53-84) applied to the database
client response `{data, error}`.  An `error` is re-thrown; `data = null`
throws; otherwise the code evaluates `console.log(events[0].datetime)`
before mapping: on an empty result set `events[0]` is `undefined` and the
member access throws a `TypeError`.  The `datetime` parse
(`Temporal.Instant.from` + `toZonedDateTimeISO`) preserves the instant and
is modelled as the identity. -/
def fetchEvents (resp : Except String (Option (List EventRow))) :
    Except String (List EventRow) :=
  match resp with
  | .error e => .error e
  | .ok none => .error ("Failed to fetch events")
  | .ok (some events) =>
    match events with
    | [] => .error ("TypeError: cannot read properties of undefined")
    | _ :: _ => .ok events

/-- Function `fetchEvents` run against a database on which the query succeeds. -/
def fetchEventsFromDb (db : List EventRow) (now : Int) :
    Except String (List EventRow) :=
  fetchEvents (.ok (some (eventsQuery db now)))

/-- Observable behaviour of one `fetchUserEvents` call (eventService.ts
lines 86-114): whether the query was issued, the user-id value put into the
`eq` filter, and the outcome. -/
structure FetchUserEventsRun where
  networkCalled : Bool
  userFilter : Option String
  result : Except String (List EventRow)

/-- Function `fetchUserEvents` (eventService.ts lines 86-114).  The source contains
no authentication guard: the query is always issued, with
`authStore.user?.id` (possibly `undefined`, modelled as `none`) as the
registration filter value. -/
def fetchUserEvents (user : Option User)
    (resp : Except String (Option (List EventRow))) : FetchUserEventsRun :=
  { networkCalled := true
    userFilter := user.map (fun u => u.id)
    result :=
      match resp with
      | .error e => .error e
      | .ok none => .error ("Could not load user events")
      | .ok (some events) => .ok events }

/-- A row of the `event_registrations` table (and of the legacy `votes`
table, which the trigger DDL treats identically).  `user_id` is nullable:
an insert payload may leave it unset. -/
structure RegistrationRow where
  id : Nat
  user_id : Option String
  event_id : Nat
  group_id : Option Nat
  present : Bool
deriving DecidableEq

/-- The trigger function `public.inject_user_id` applied to one row
(part_000 lines 16-27): if `new.user_id` is null it is set to `auth.uid()`
(the session user id, null when there is no session); the row is returned. -/
def inject_user_id (sessionUid : Option String) (r : RegistrationRow) :
    RegistrationRow :=
  if r.user_id = none then { r with user_id := sessionUid } else r

/-- PostgreSQL trigger granularity.  `CREATE TRIGGER` without a
`FOR EACH ROW` clause defaults to `FOR EACH STATEMENT`. -/
inductive TriggerLevel where
  | rowLevel
  | statementLevel
deriving DecidableEq

/-- Granularity of a trigger from whether its DDL says `FOR EACH ROW`. -/
def triggerLevel (forEachRow : Bool) : TriggerLevel :=
  if forEachRow then .rowLevel else .statementLevel

/-- Trigger `on_vote_insert_inject_user_id` (part_000 lines 36-38) has no
`FOR EACH ROW` clause. -/
def voteTriggerForEachRow : Bool := false

/-- Trigger `on_registration_insert_inject_user_id` (part_000 lines 41-43) has no
`FOR EACH ROW` clause. -/
def registrationTriggerForEachRow : Bool := false

/-- An insert of `rows` running a `BEFORE INSERT` binding of
`inject_user_id` at the given granularity.  At row level the function maps
over the inserted rows.  At statement level `NEW` is not bound, so the
plpgsql body errors at `new.user_id` with PostgreSQL error 55000
("record new is not assigned yet") and the insert is aborted. -/
def runInsertWithInjectTrigger (level : TriggerLevel)
    (sessionUid : Option String) (rows : List RegistrationRow) :
    Except String (List RegistrationRow) :=
  match level with
  | .rowLevel => .ok (rows.map (inject_user_id sessionUid))
  | .statementLevel => .error ("record new is not assigned yet")

/-- Inserting rows into `public.event_registrations`, with its
`inject_user_id` trigger binding as declared in part_000. -/
def insertRegistrations (sessionUid : Option String)
    (rows : List RegistrationRow) : Except String (List RegistrationRow) :=
  runInsertWithInjectTrigger (triggerLevel registrationTriggerForEachRow)
    sessionUid rows

/-- Inserting rows into `public.votes`, with its `inject_user_id` trigger
binding as declared in part_000. -/
def insertVotes (sessionUid : Option String)
    (rows : List RegistrationRow) : Except String (List RegistrationRow) :=
  runInsertWithInjectTrigger (triggerLevel voteTriggerForEachRow)
    sessionUid rows

/-- Observable behaviour of one `isRegisteredForEvent` call: whether the
count query was issued, and the outcome. -/
structure IsRegisteredRun where
  queried : Bool
  result : Except String Bool

/-- Function `isRegisteredForEvent` (eventService.ts lines 222-233): if
`authStore.user?.id` is falsy, return `false` without querying; otherwise
count the registration rows matching the event and the user and return
`count != 0`. -/
def isRegisteredForEvent (user : Option User)
    (db : List RegistrationRow) (eventId : Nat) : IsRegisteredRun :=
  match user with
  | none => { queried := false, result := .ok false }
  | some u =>
    if u.id == "" then { queried := false, result := .ok false }
    else
      { queried := true
        result := .ok
          (((db.filter
              (fun r => r.event_id == eventId && r.user_id == some u.id)).length
            != 0)) }

/-- A row of the `profiles` table, keyed by `user_id`. -/
structure ProfileRow where
  user_id : String
  email : Option String
  full_name : Option String
  description : Option String
deriving DecidableEq

/-- The client-side `Profile` object (profileService.ts lines 4-8): all
three fields optional. -/
structure Profile where
  email : Option String
  fullName : Option String
  description : Option String
deriving DecidableEq

/-- The `Profile` built from a fetched or updated row (profileService.ts
lines 32-36 and 65-69). -/
def rowToProfile (r : ProfileRow) : Profile :=
  { email := r.email, fullName := r.full_name, description := r.description }

/-- Effect of the update payload
`{full_name: newProfile.fullName, description: newProfile.description}` on
one row.  The payload is serialised as JSON, and `JSON.stringify` drops
keys whose value is `undefined`, so an `undefined` field leaves the
corresponding column unchanged. -/
def applyProfilePayload (p : Profile) (r : ProfileRow) : ProfileRow :=
  { r with
    full_name :=
      match p.fullName with
      | none => r.full_name
      | some s => some s
    description :=
      match p.description with
      | none => r.description
      | some s => some s }

/-- The server-side `update ... match {user_id} ... maybeSingle` of
`updateProfile`: every row whose `user_id` matches is updated, and the
response row (`maybeSingle`) is the updated matching row, or null when no
row matched. -/
def dbUpdateProfiles (db : List ProfileRow) (uid : String) (p : Profile) :
    List ProfileRow × Option ProfileRow :=
  ( db.map (fun r => if r.user_id == uid then applyProfilePayload p r else r)
  , ((db.filter (fun r => r.user_id == uid)).map
      (applyProfilePayload p)).head? )

/-- The server-side `select ... eq user_id ... maybeSingle` of
`readProfile`. -/
def dbSelectProfile (db : List ProfileRow) (uid : String) :
    Option ProfileRow :=
  (db.filter (fun r => r.user_id == uid)).head?

/-- Function `readProfile` (profileService.ts lines 14-38) against the profiles
table: guard `!authStore.user || !authStore.user.email`, then fetch the
row; a null row is a local error. -/
def readProfile (user : Option User) (db : List ProfileRow) :
    Except String Profile :=
  match user with
  | none => .error ("User is not logged in")
  | some u =>
    if jsStrFalsy u.email then .error ("User is not logged in")
    else
      match dbSelectProfile db u.id with
      | none => .error ("Fetching profile unsuccessful")
      | some row => .ok (rowToProfile row)

/-- The local guards of `updateProfile` (profileService.ts lines 44-49),
run before any network call: `!authStore.user || !authStore.user.email`
throws, then `!newProfile.fullName` (missing or empty name) throws.
Returns the error message when a guard fires. -/
def updateProfileGuard (user : Option User) (p : Profile) : Option String :=
  match user with
  | none => some ("User is not logged in")
  | some u =>
    if jsStrFalsy u.email then some ("User is not logged in")
    else if jsStrFalsy p.fullName then
      some ("Argument object is missing fullName attribute")
    else none

/-- Observable behaviour of one `updateProfile` call: whether the update
request was issued, the auth/profile store after the call (`store` holds
`authStore.profile`), and the outcome. -/
structure UpdateProfileRun where
  networkCalled : Bool
  store : Option Profile
  result : Except String Profile

/-- Function `updateProfile` (profileService.ts lines 41-74) applied to the
database client response: local guards first (no request issued when one
fires); a query `error` is re-thrown; a null row means the update matched
nothing and is a local error; on success the returned profile is pushed
into the auth store (`authStore.setProfileStore(retArg)`). -/
def updateProfile (user : Option User) (p : Profile)
    (resp : Except String (Option ProfileRow)) (store0 : Option Profile) :
    UpdateProfileRun :=
  match updateProfileGuard user p with
  | some e => { networkCalled := false, store := store0, result := .error e }
  | none =>
    match resp with
    | .error e => { networkCalled := true, store := store0, result := .error e }
    | .ok none =>
      { networkCalled := true, store := store0
        result := .error ("Update of profile unsuccessful") }
    | .ok (some row) =>
      { networkCalled := true, store := some (rowToProfile row)
        result := .ok (rowToProfile row) }

/-- Function `updateProfile` wired to the profiles table: when the local guards
pass, the table is updated and the response row fed back; when a guard
fires, no request is issued and the table is unchanged. -/
def updateProfileDb (user : Option User) (p : Profile)
    (db : List ProfileRow) (store0 : Option Profile) :
    List ProfileRow × UpdateProfileRun :=
  match updateProfileGuard user p, user with
  | none, some u =>
    ((dbUpdateProfiles db u.id p).1,
     updateProfile user p (.ok (dbUpdateProfiles db u.id p).2) store0)
  | _, _ => (db, updateProfile user p (.ok none) store0)

/-- A group of a grouped event. -/
structure Group where
  id : Option Nat
  title : String
  description : String
deriving DecidableEq

/-- The pair of groups attached to a grouped event. -/
structure GroupPair where
  groupA : Group
  groupB : Group
deriving DecidableEq

/-- The `EditEventInfo` argument of `createEvent` (eventService.ts lines
35-40).  The attached file is opaque and modelled by its contents as a
string; `event_groups` is checked for presence at runtime, so it is
modelled as optional. -/
structure EditEventInfo where
  title : String
  description : String
  header_image : Option String
  datetime : Int
  location : String
  max_participants : Nat
  headerImageFile : Option String
  uses_groups : Bool
  event_groups : Option GroupPair
deriving DecidableEq

/-- Observable behaviour of one `createEvent` call: the state of the
caller-supplied `eventData` object after the call (the source assigns into
it), whether a creation request (rpc or insert) was issued, the
`header_image` value carried by that request, which path was taken, and
the outcome. -/
structure CreateEventRun where
  eventData : EditEventInfo
  creationIssued : Bool
  creationHeader : Option String
  usedGroupsPath : Bool
  result : Except String Unit

/-- The creation branch of `createEvent` (eventService.ts lines 170-198)
on the (possibly mutated) `eventData`: the rpc `create_event_with_groups`
when `uses_groups`, a plain insert otherwise; either branch re-throws its
error. -/
def createEventCreation (e : EditEventInfo)
    (creationError : Option String) : CreateEventRun :=
  if e.uses_groups then
    match e.event_groups with
    | none =>
      { eventData := e, creationIssued := false, creationHeader := none
        usedGroupsPath := false
        result :=
          .error ("Event is indicated to use groups, but no groups were provided") }
    | some _ =>
      { eventData := e, creationIssued := true
        creationHeader := e.header_image, usedGroupsPath := true
        result :=
          match creationError with
          | some err => .error err
          | none => .ok () }
  else
    { eventData := e, creationIssued := true
      creationHeader := e.header_image, usedGroupsPath := false
      result :=
        match creationError with
        | some err => .error err
        | none => .ok () }

/-- Function `createEvent` (eventService.ts lines 143-199): auth guard; if a header
image file is attached, upload it (`uploadResp` is the storage response:
error, or an optional `Key`) and on success assign the returned storage
key into `eventData.header_image`; then run the creation branch. -/
def createEvent (user : Option User) (e : EditEventInfo)
    (uploadResp : Except String (Option String))
    (creationError : Option String) : CreateEventRun :=
  match user with
  | none =>
    { eventData := e, creationIssued := false, creationHeader := none
      usedGroupsPath := false, result := .error ("User is not logged in") }
  | some _ =>
    match e.headerImageFile with
    | none => createEventCreation e creationError
    | some _ =>
      match uploadResp with
      | .error err =>
        { eventData := e, creationIssued := false, creationHeader := none
          usedGroupsPath := false, result := .error err }
      | .ok none =>
        { eventData := e, creationIssued := false, creationHeader := none
          usedGroupsPath := false
          result := .error ("Received no data after uploading image") }
      | .ok (some key) =>
        createEventCreation { e with header_image := some key } creationError

/-- A JavaScript value as it appears in a `fetchUserEvents` result row:
scalars, `null`, an embedded group-pair resource, or an embedded array of
registration rows. -/
inductive JsValue where
  | vNull
  | vBool (b : Bool)
  | vNum (n : Int)
  | vStr (s : String)
  | vPair (p : GroupPair)
  | vRegs (rs : List RegistrationRow)
deriving DecidableEq

/-- Property access on a JavaScript object modelled as a key-value list:
`none` is `undefined` (key absent). -/
def jsGet (o : List (String × JsValue)) (k : String) : Option JsValue :=
  (o.find? (fun kv => kv.1 == k)).map (fun kv => kv.2)

/-- One JavaScript object of the `fetchUserEvents` result.  Its keys come
from the select clause of eventService.ts line 92: `*` yields the columns
of the `events` table, and the two embedded resources appear under their
aliases `event_group_pair` and `event_registrations` (the alias in
`fetchEvents`, line 59, is `event_groups` instead).  The client-side map
`{...e, datetime: parsed}` preserves the key set, and the parse preserves
the instant, so the row is also the element of the returned array. -/
def mkUserEventRow (e : EventRow) (pair : Option GroupPair)
    (regs : List RegistrationRow) : List (String × JsValue) :=
  [ ("id", .vNum e.id)
  , ("organizer", .vStr e.organizer)
  , ("title", .vStr e.title)
  , ("description", .vStr e.description)
  , ("header_image",
      match e.header_image with
      | none => .vNull
      | some s => .vStr s)
  , ("datetime", .vNum e.datetime)
  , ("location", .vStr e.location)
  , ("max_participants", .vNum e.max_participants)
  , ("is_ended", .vBool e.is_ended)
  , ("is_cancelled", .vBool e.is_cancelled)
  , ("event_group_pair",
      match pair with
      | none => .vNull
      | some p => .vPair p)
  , ("event_registrations", .vRegs regs) ]

/-- An `events` row joined with its optional group pair and its
registrations, as stored server-side. -/
structure JoinedEvent where
  event : EventRow
  pair : Option GroupPair
  regs : List RegistrationRow
deriving DecidableEq

/-- Ordering of joined rows by event datetime. -/
def jdtLe (a b : JoinedEvent) : Prop := a.event.datetime ≤ b.event.datetime

instance : DecidableRel jdtLe :=
  fun a b => inferInstanceAs (Decidable (a.event.datetime ≤ b.event.datetime))

instance : IsTotal JoinedEvent jdtLe :=
  ⟨fun a b => Int.le_total a.event.datetime b.event.datetime⟩

instance : IsTrans JoinedEvent jdtLe :=
  ⟨fun _ _ _ hab hbc => le_trans hab hbc⟩

/-- The result rows of the `fetchUserEvents` query for an authenticated
user id `uid`: the `event_registrations!inner` join with the
`eq(event_registrations.user_id, uid)` filter keeps the events having a
matching registration (and restricts the embedded array to the matching
rows), the event filters and the ordering are those of `fetchEvents`, and
each surviving row is rendered as a JavaScript object. -/
def fetchUserEventsRows (db : List JoinedEvent) (uid : String) (now : Int) :
    List (List (String × JsValue)) :=
  (List.insertionSort jdtLe
    (db.filter
      (fun j =>
        !(j.regs.filter (fun r => r.user_id == some uid)).isEmpty &&
        !j.event.is_cancelled && !j.event.is_ended &&
        decide (dateXHoursAgo now 1 < j.event.datetime)))).map
    (fun j =>
      mkUserEventRow j.event j.pair
        (j.regs.filter (fun r => r.user_id == some uid)))

/-! Concrete sample data used by witnesses and counterexamples. -/

/-- A sample event row passing the listing filter at `now = 0`. -/
def ev1 : EventRow :=
  { id := 1, organizer := "org", title := "Title", description := "Desc"
    header_image := none, datetime := 7200, location := "Loc"
    max_participants := 10, is_ended := false, is_cancelled := false }

/-- A sample cancelled event row. -/
def ev2 : EventRow :=
  { id := 2, organizer := "org", title := "Gone", description := "Desc"
    header_image := none, datetime := 3600, location := "Loc"
    max_participants := 10, is_ended := false, is_cancelled := true }

/-- A sample events table. -/
def db1 : List EventRow := [ev1, ev2]

/-- A sample authenticated user. -/
def u0 : User := { id := "u1", email := some "e" }

/-- A sample registrations table. -/
def regs0 : List RegistrationRow :=
  [{ id := 1, user_id := some "u1", event_id := 42, group_id := none
     present := false }]

/-- A sample profiles table row. -/
def prow0 : ProfileRow :=
  { user_id := "u1", email := some "e", full_name := some "Old"
    description := some "OldDesc" }

/-- A sample profiles table. -/
def pdb0 : List ProfileRow := [prow0]

/-- An update payload with a defined description. -/
def p1 : Profile := { email := none, fullName := some "New"
                      description := some "D" }

/-- An update payload whose description is left `undefined`. -/
def p0 : Profile := { email := none, fullName := some "New"
                      description := none }

/-- A sample group pair. -/
def gp0 : GroupPair :=
  { groupA := { id := some 1, title := "A", description := "da" }
    groupB := { id := some 2, title := "B", description := "db" } }

/-- A sample joined table for the user-events query. -/
def jdb0 : List JoinedEvent :=
  [{ event := ev1, pair := some gp0
     regs := [{ id := 1, user_id := some "u1", event_id := 1
                group_id := none, present := false }] }]

/-- A sample `createEvent` argument with an attached header image file. -/
def ee0 : EditEventInfo :=
  { title := "T", description := "D", header_image := some "old.png"
    datetime := 7200, location := "L", max_participants := 5
    headerImageFile := some "filebytes", uses_groups := false
    event_groups := none }

/-! ## Theorems for the claims -/

/-- C1: every event in a list returned by `fetchEvents` has
`is_cancelled = false`, `is_ended = false` and a datetime later than one
hour before now, and the list is ordered non-decreasing by datetime. -/
theorem fetchEvents_filters_and_sorted :
    ∀ (db : List EventRow) (now : Int) (l : List EventRow),
      fetchEventsFromDb db now = .ok l →
      (∀ e ∈ l, e.is_cancelled = false ∧ e.is_ended = false ∧
        dateXHoursAgo now 1 < e.datetime) ∧ List.Sorted dtLe l := by
  intro db now l h
  have hl : l = eventsQuery db now := by
    cases hq : eventsQuery db now with
    | nil => simp [fetchEventsFromDb, fetchEvents, hq] at h
    | cons a t =>
      simp [fetchEventsFromDb, fetchEvents, hq] at h
      subst h
      rfl
  subst hl
  constructor
  · intro e he
    rw [eventsQuery, List.mem_insertionSort, List.mem_filter] at he
    have hp := he.2
    simp only [Bool.and_eq_true, Bool.not_eq_true', decide_eq_true_eq] at hp
    exact ⟨hp.1.1, hp.1.2, hp.2⟩
  · exact List.sorted_insertionSort dtLe _

/-- C1 witness: the theorem applied to the sample table at `now = 0`. -/
theorem fetchEvents_filters_and_sorted_witness :
    (∀ e ∈ eventsQuery db1 0, e.is_cancelled = false ∧ e.is_ended = false ∧
      dateXHoursAgo 0 1 < e.datetime) ∧ List.Sorted dtLe (eventsQuery db1 0) :=
  fetchEvents_filters_and_sorted db1 0 (eventsQuery db1 0) rfl

/-- C3: on a successful query with an empty result set, `fetchEvents` does
not return the empty list: the leftover `console.log(events[0].datetime)`
accesses a member of `undefined` and throws. -/
theorem fetchEvents_empty_result_throws :
    fetchEvents (.ok (some [])) =
      .error ("TypeError: cannot read properties of undefined") := rfl

/-- The intended per-row behaviour of `inject_user_id`: an unset `user_id`
is stamped with the session id, a set one is kept.  (This is what the
trigger DDL would do with a `FOR EACH ROW` clause.) -/
theorem inject_user_id_stamps (uid : String) (r : RegistrationRow) :
    (r.user_id = none →
      inject_user_id (some uid) r = { r with user_id := some uid }) ∧
    (r.user_id ≠ none → inject_user_id (some uid) r = r) := by
  constructor
  · intro h
    simp [inject_user_id, h]
  · intro h
    simp [inject_user_id, h]

/-- Witness for the intended per-row behaviour at concrete rows. -/
theorem inject_user_id_stamps_witness :
    inject_user_id (some "u1")
        { id := 1, user_id := none, event_id := 42, group_id := none
          present := false } =
      { id := 1, user_id := some "u1", event_id := 42, group_id := none
        present := false } :=
  (inject_user_id_stamps "u1"
    { id := 1, user_id := none, event_id := 42, group_id := none
      present := false }).1 rfl

/-- C2: the two trigger bindings are declared without `FOR EACH ROW`, so
they run at statement level; there `NEW` is not bound and the insert of a
row with unset `user_id` errors out instead of persisting a stamped row.
The behaviour is nevertheless identical for the two tables. -/
theorem registration_insert_trigger_statement_level :
    insertRegistrations (some "u1")
        [{ id := 1, user_id := none, event_id := 42, group_id := none
           present := false }] =
      .error ("record new is not assigned yet") ∧
    (∀ uid rows, insertVotes uid rows = insertRegistrations uid rows) :=
  ⟨rfl, fun _ _ => rfl⟩

/-- C4: with no authenticated user, `fetchUserEvents` does not fail before
the network call: the query is issued (with an undefined user-id filter
value), and if the server tolerates the filter the call even returns
normally. -/
theorem fetchUserEvents_unauthenticated_queries_anyway :
    (fetchUserEvents none (.ok (some []))).networkCalled = true ∧
    (fetchUserEvents none (.ok (some []))).userFilter = none ∧
    (fetchUserEvents none (.ok (some []))).result = .ok [] :=
  ⟨rfl, rfl, rfl⟩

/-- The update payload never touches `user_id`. -/
theorem applyProfilePayload_user_id (p : Profile) (r : ProfileRow) :
    (applyProfilePayload p r).user_id = r.user_id := rfl

/-- Filtering the updated table for the matched key is the same as
updating the filtered rows: the select after an update sees exactly the
updated matching rows. -/
theorem filter_map_dbUpdate (p : Profile) (uid : String)
    (db : List ProfileRow) :
    (db.map
        (fun r => if r.user_id == uid then applyProfilePayload p r else r)).filter
      (fun r => r.user_id == uid)
      = (db.filter (fun r => r.user_id == uid)).map (applyProfilePayload p) := by
  induction db with
  | nil => rfl
  | cons r t ih =>
    simp only [beq_iff_eq] at ih ⊢
    by_cases h : r.user_id = uid
    · simp [List.filter_cons, h, applyProfilePayload_user_id, ih]
    · simp [List.filter_cons, h, ih]

/-- A non-falsy optional string is a defined, non-empty string. -/
theorem jsStrFalsy_false (x : Option String) (h : jsStrFalsy x = false) :
    ∃ s, x = some s ∧ s ≠ "" := by
  cases x with
  | none => simp [jsStrFalsy] at h
  | some s =>
    refine ⟨s, rfl, ?_⟩
    simpa [jsStrFalsy] using h

/-- Witness: `jsStrFalsy` is false on a concrete non-empty string. -/
theorem jsStrFalsy_false_witness : ∃ s, some "e" = some s ∧ s ≠ "" :=
  jsStrFalsy_false (some "e") rfl

/-- C5 (amended): for an authenticated user and a payload whose
description is defined, a successful `updateProfile` followed by
`readProfile` yields the full name and description of the payload.  (When the
description is `undefined` it is dropped from the update payload and the
stored description survives, so the restriction to a defined description
is necessary.) -/
theorem updateProfile_readProfile_roundtrip :
    ∀ (u : User) (p : Profile) (db : List ProfileRow)
      (store0 : Option Profile) (d : String) (r : Profile),
      p.description = some d →
      (updateProfileDb (some u) p db store0).2.result = .ok r →
      ∃ q, readProfile (some u) (updateProfileDb (some u) p db store0).1 =
          .ok q ∧ q.fullName = p.fullName ∧ q.description = p.description := by
  intro u p db store0 d r hd hok
  cases hg : updateProfileGuard (some u) p with
  | some e => simp [updateProfileDb, hg, updateProfile] at hok
  | none =>
    cases he : jsStrFalsy u.email with
    | true => simp [updateProfileGuard, he] at hg
    | false =>
    cases hf : jsStrFalsy p.fullName with
    | true => simp [updateProfileGuard, he, hf] at hg
    | false =>
    have hdb : updateProfileDb (some u) p db store0 =
        ((dbUpdateProfiles db u.id p).1,
         updateProfile (some u) p (.ok (dbUpdateProfiles db u.id p).2)
           store0) := by
      simp [updateProfileDb, hg]
    cases hrow : (dbUpdateProfiles db u.id p).2 with
    | none =>
      rw [hdb] at hok
      simp [updateProfile, hg, hrow] at hok
    | some row =>
      have hmap : ((db.filter (fun r2 => r2.user_id == u.id)).map
          (applyProfilePayload p)).head? = some row := hrow
      rw [List.head?_map] at hmap
      obtain ⟨r0, hr0head, hr0⟩ := Option.map_eq_some'.mp hmap
      have hsel : dbSelectProfile (dbUpdateProfiles db u.id p).1 u.id =
          some row := by
        simp only [dbSelectProfile, dbUpdateProfiles]
        rw [filter_map_dbUpdate, List.head?_map, hr0head]
        simp [hr0]
      obtain ⟨s, hs, hsne⟩ := jsStrFalsy_false p.fullName hf
      refine ⟨rowToProfile row, ?_, ?_, ?_⟩
      · rw [hdb]
        simp [readProfile, he, hsel]
      · rw [← hr0]
        simp [rowToProfile, applyProfilePayload, hs]
      · rw [← hr0]
        simp [rowToProfile, applyProfilePayload, hd]

/-- C5 counterexample to the claim as stated: updating with an
`undefined` description succeeds, but the subsequent read returns the old
stored description, which differs from the one of the payload. -/
theorem updateProfile_roundtrip_description_counterexample :
    (updateProfileDb (some u0) p0 pdb0 none).2.result =
      .ok { email := some "e", fullName := some "New"
            description := some "OldDesc" } ∧
    readProfile (some u0) (updateProfileDb (some u0) p0 pdb0 none).1 =
      .ok { email := some "e", fullName := some "New"
            description := some "OldDesc" } ∧
    (some "OldDesc" : Option String) ≠ p0.description :=
  ⟨rfl, rfl, by decide⟩

/-- C5 witness: the amended round trip at a concrete table and payload
with a defined description. -/
theorem updateProfile_readProfile_roundtrip_witness :
    ∃ q, readProfile (some u0) (updateProfileDb (some u0) p1 pdb0 none).1 =
        .ok q ∧ q.fullName = p1.fullName ∧ q.description = p1.description :=
  updateProfile_readProfile_roundtrip u0 p1 pdb0 none "D"
    { email := some "e", fullName := some "New", description := some "D" }
    rfl rfl

/-- C6: for an authenticated user, `updateProfile` with a missing or empty
full name fails locally: no request is issued, the table is untouched and
the store is unchanged. -/
theorem updateProfile_missing_fullName_local :
    ∀ (u : User) (p : Profile) (db : List ProfileRow)
      (store0 : Option Profile),
      jsStrFalsy u.email = false → jsStrFalsy p.fullName = true →
      updateProfileDb (some u) p db store0 =
        (db,
         { networkCalled := false, store := store0
           result :=
             .error ("Argument object is missing fullName attribute") }) := by
  intro u p db store0 he hf
  have hg : updateProfileGuard (some u) p =
      some ("Argument object is missing fullName attribute") := by
    simp [updateProfileGuard, he, hf]
  simp [updateProfileDb, updateProfile, hg]

/-- C6 witness: a concrete authenticated user and a payload with no
full name. -/
theorem updateProfile_missing_fullName_local_witness :
    updateProfileDb (some u0)
        { email := none, fullName := none, description := none } pdb0 none =
      (pdb0,
       { networkCalled := false, store := none
         result :=
           .error ("Argument object is missing fullName attribute") }) :=
  updateProfile_missing_fullName_local u0
    { email := none, fullName := none, description := none } pdb0 none
    rfl rfl

/-- C7: `updateProfile` writes the auth/profile store exactly on success:
a successful call stores the profile returned by the database, and every
failing call leaves the store as it was. -/
theorem updateProfile_store_iff_success :
    ∀ (user : Option User) (p : Profile)
      (resp : Except String (Option ProfileRow)) (store0 : Option Profile),
      (∀ r, (updateProfile user p resp store0).result = .ok r →
        (updateProfile user p resp store0).store = some r) ∧
      (∀ e, (updateProfile user p resp store0).result = .error e →
        (updateProfile user p resp store0).store = store0) := by
  intro user p resp store0
  constructor
  · intro r hr
    cases hg : updateProfileGuard user p with
    | some e => simp [updateProfile, hg] at hr
    | none =>
      cases resp with
      | error e2 => simp [updateProfile, hg] at hr
      | ok o =>
        cases o with
        | none => simp [updateProfile, hg] at hr
        | some row =>
          simp only [updateProfile, hg] at hr ⊢
          simp only [Except.ok.injEq] at hr
          simp [hr]
  · intro e he
    cases hg : updateProfileGuard user p with
    | some e2 => simp [updateProfile, hg]
    | none =>
      cases resp with
      | error e2 => simp [updateProfile, hg]
      | ok o =>
        cases o with
        | none => simp [updateProfile, hg]
        | some row => simp [updateProfile, hg] at he

/-- C7 witness: a concrete successful update stores the returned
profile. -/
theorem updateProfile_store_iff_success_witness :
    (updateProfile (some u0) p1 (.ok (some prow0)) none).store =
      some (rowToProfile prow0) :=
  (updateProfile_store_iff_success (some u0) p1 (.ok (some prow0)) none).1
    (rowToProfile prow0) rfl

/-- C8: `isRegisteredForEvent` returns `false` without querying when no
user is authenticated, and for an authenticated user (a non-empty id) it
queries and returns whether a registration row exists for that user and
event. -/
theorem isRegisteredForEvent_spec :
    ∀ (user : Option User) (db : List RegistrationRow) (eventId : Nat),
      (user = none → isRegisteredForEvent user db eventId =
        { queried := false, result := .ok false }) ∧
      (∀ u, user = some u → u.id ≠ "" →
        (isRegisteredForEvent user db eventId).queried = true ∧
        ∃ b, (isRegisteredForEvent user db eventId).result = .ok b ∧
          (b = true ↔
            ∃ r2 ∈ db, r2.event_id = eventId ∧ r2.user_id = some u.id)) := by
  intro user db eventId
  constructor
  · intro h
    subst h
    rfl
  · intro u hu hne
    subst hu
    have hid : (u.id == "") = false := by simp [hne]
    constructor
    · simp [isRegisteredForEvent, hid]
    · refine ⟨((db.filter
          (fun r2 => r2.event_id == eventId &&
            r2.user_id == some u.id)).length != 0), ?_, ?_⟩
      · simp [isRegisteredForEvent, hid]
      · rw [bne_iff_ne]
        constructor
        · intro hlen
          obtain ⟨r2, hr2⟩ :=
            List.exists_mem_of_length_pos (Nat.pos_of_ne_zero hlen)
          rw [List.mem_filter] at hr2
          obtain ⟨hmem, hp⟩ := hr2
          simp only [Bool.and_eq_true, beq_iff_eq] at hp
          exact ⟨r2, hmem, hp.1, hp.2⟩
        · rintro ⟨r2, hmem, hev, hus⟩
          have hf : r2 ∈ db.filter
              (fun r3 => r3.event_id == eventId &&
                r3.user_id == some u.id) := by
            rw [List.mem_filter]
            exact ⟨hmem, by simp [hev, hus]⟩
          exact Nat.pos_iff_ne_zero.mp (List.length_pos_of_mem hf)

/-- C8 witness: a concrete registered user and event. -/
theorem isRegisteredForEvent_spec_witness :
    (isRegisteredForEvent (some u0) regs0 42).queried = true ∧
    ∃ b, (isRegisteredForEvent (some u0) regs0 42).result = .ok b ∧
      (b = true ↔ ∃ r2 ∈ regs0, r2.event_id = 42 ∧ r2.user_id = some u0.id) :=
  (isRegisteredForEvent_spec (some u0) regs0 42).2 u0 rfl (by decide)

/-- The creation branch leaves `eventData` as it received it. -/
theorem createEventCreation_eventData (e : EditEventInfo)
    (ce : Option String) : (createEventCreation e ce).eventData = e := by
  unfold createEventCreation
  split
  · split <;> rfl
  · rfl

/-- When the creation branch issues a request, the request carries the
`header_image` of the `eventData` it received. -/
theorem createEventCreation_header (e : EditEventInfo) (ce : Option String)
    (h : (createEventCreation e ce).creationIssued = true) :
    (createEventCreation e ce).creationHeader = e.header_image := by
  unfold createEventCreation at h ⊢
  revert h
  split
  · split
    · intro h
      simp at h
    · intro h
      rfl
  · intro h
    rfl

/-- Witness for the creation-branch lemmas at a concrete argument. -/
theorem createEventCreation_header_witness :
    (createEventCreation ee0 none).creationHeader = ee0.header_image :=
  createEventCreation_header ee0 none rfl

/-- C9: `createEvent` mutates its argument.  When a header image file is
attached and the upload succeeds with storage key `key`, the
caller-supplied `eventData` ends up with `header_image = key`, and any
creation request issued carries that key; with no file attached,
`eventData` is returned untouched. -/
theorem createEvent_header_image_mutation :
    ∀ (u : User) (e : EditEventInfo)
      (uploadResp : Except String (Option String)) (key : String)
      (creationError : Option String),
      (e.headerImageFile ≠ none → uploadResp = .ok (some key) →
        (createEvent (some u) e uploadResp creationError).eventData =
          { e with header_image := some key } ∧
        ((createEvent (some u) e uploadResp creationError).creationIssued =
            true →
          (createEvent (some u) e uploadResp creationError).creationHeader =
            some key)) ∧
      (e.headerImageFile = none →
        (createEvent (some u) e uploadResp creationError).eventData = e) := by
  intro u e uploadResp key creationError
  constructor
  · intro hf hup
    subst hup
    cases hfile : e.headerImageFile with
    | none => exact absurd hfile hf
    | some f =>
      have hred : createEvent (some u) e (.ok (some key)) creationError =
          createEventCreation { e with header_image := some key }
            creationError := by
        simp [createEvent, hfile]
      constructor
      · rw [hred, createEventCreation_eventData, hfile]
      · rw [hred]
        intro h
        rw [createEventCreation_header _ _ h]
  · intro hfile
    simp [createEvent, hfile, createEventCreation_eventData]

/-- C9 witness: a concrete upload that succeeds with key `K`. -/
theorem createEvent_header_image_mutation_witness :
    (createEvent (some u0) ee0 (.ok (some "K")) none).eventData =
        { ee0 with header_image := some "K" } ∧
    (createEvent (some u0) ee0 (.ok (some "K")) none).creationHeader =
        some "K" :=
  ⟨((createEvent_header_image_mutation u0 ee0 (.ok (some "K")) "K" none).1
      (by decide) rfl).1,
   ((createEvent_header_image_mutation u0 ee0 (.ok (some "K")) "K" none).1
      (by decide) rfl).2 rfl⟩

/-- C10: every row returned by the `fetchUserEvents` query carries its
group pair under the key `event_group_pair`; the key `event_groups` of the
declared `EventInfo` type is absent, i.e. reads as `undefined`, on every
element. -/
theorem fetchUserEvents_event_groups_undefined :
    ∀ (db : List JoinedEvent) (uid : String) (now : Int)
      (row : List (String × JsValue)),
      row ∈ fetchUserEventsRows db uid now →
      jsGet row "event_groups" = none ∧
      ∃ v, jsGet row "event_group_pair" = some v := by
  intro db uid now row hrow
  rw [fetchUserEventsRows, List.mem_map] at hrow
  obtain ⟨j, hj, hrow⟩ := hrow
  subst hrow
  exact ⟨rfl, ⟨_, rfl⟩⟩

/-- C10 witness: a concrete joined table whose single event has a group
pair. -/
theorem fetchUserEvents_event_groups_undefined_witness :
    jsGet (mkUserEventRow ev1 (some gp0)
        [{ id := 1, user_id := some "u1", event_id := 1, group_id := none
           present := false }]) "event_groups" = none ∧
    ∃ v, jsGet (mkUserEventRow ev1 (some gp0)
        [{ id := 1, user_id := some "u1", event_id := 1, group_id := none
           present := false }]) "event_group_pair" = some v :=
  fetchUserEvents_event_groups_undefined jdb0 "u1" 0
    (mkUserEventRow ev1 (some gp0)
      [{ id := 1, user_id := some "u1", event_id := 1, group_id := none
         present := false }]) (by decide)

end Matchy
